import Mathlib

/-!
# Verification model of the vibe-coded story teller

A shallow embedding, in Lean 4, of the small browser application in
`src/App.tsx` and `src/services/geminiService.ts`:

* the Gemini service wrappers `generateStoryFromImage` and
  `generateSpeechFromText` become pure functions of the (nondeterministic)
  remote response;
* the base64 / PCM audio decoding utilities (`decode`, `decodeAudioData` from
  `utils/audioUtils.ts`, whose source file is not part of the repository
  snapshot) are modelled from the written specification of the Binary Codec;
* the React component `App` becomes an event-driven transition system: its
  `useState` cells form a state record, each user interaction or asynchronous
  completion is an event, and `step` is the handler code.  Events that the
  interface makes impossible (clicking a disabled control, completion of an
  operation that was never started) yield `none`.

Machine integers do not occur: all byte values are `Nat`, PCM samples are
`Int` in the signed 16-bit range, and normalized samples are `ℚ`.
-/

namespace StoryTeller

/-! ## Binary codec, modelled from the spec (§4.1)

`src/App.tsx` imports `decode` and `decodeAudioData` from
`./utils/audioUtils`; that file is not under `src/`, so the two functions are
modelled from the specification of the Binary Codec component. -/

/-- Value of one base64 alphabet character, `none` for a character outside the
alphabet.  (Padding `=` is handled by the chunk decoder.) -/
def b64Val (c : Char) : Option Nat :=
  if 'A' ≤ c ∧ c ≤ 'Z' then some (c.toNat - 'A'.toNat)
  else if 'a' ≤ c ∧ c ≤ 'z' then some (c.toNat - 'a'.toNat + 26)
  else if '0' ≤ c ∧ c ≤ '9' then some (c.toNat - '0'.toNat + 52)
  else if c = '+' then some 62
  else if c = '/' then some 63
  else none

/-- Modelled from the spec: `decodeBase64` consumes base64 text in groups of
four characters, producing three bytes per full group, two or one for a group
ending in `=` or `==`; it fails (`MalformedInputError`) on characters outside
the alphabet or invalid padding. -/
def decodeB64Chunks : List Char → Except String (List Nat)
  | [] => .ok []
  | a :: b :: c :: d :: rest => do
    let va ← (b64Val a).elim (.error "MalformedInputError") .ok
    let vb ← (b64Val b).elim (.error "MalformedInputError") .ok
    if c = '=' then
      if d = '=' ∧ rest = [] then
        .ok [va * 4 + vb / 16]
      else .error "MalformedInputError"
    else do
      let vc ← (b64Val c).elim (.error "MalformedInputError") .ok
      if d = '=' then
        if rest = [] then .ok [va * 4 + vb / 16, vb % 16 * 16 + vc / 4]
        else .error "MalformedInputError"
      else do
        let vd ← (b64Val d).elim (.error "MalformedInputError") .ok
        let tail ← decodeB64Chunks rest
        .ok ((va * 4 + vb / 16) :: (vb % 16 * 16 + vc / 4) :: (vc % 4 * 64 + vd) :: tail)
  | _ => .error "MalformedInputError"

/-- Modelled from the spec: `decode(text)` of `utils/audioUtils.ts` — base64
text to the exact byte sequence it encodes. -/
def decode (text : String) : Except String (List Nat) :=
  decodeB64Chunks text.data

/-- Little-endian pair of bytes read as a signed 16-bit integer. -/
def toInt16 (lo hi : Nat) : Int :=
  let v : Nat := (lo + 256 * hi) % 65536
  if v < 32768 then (v : Int) else (v : Int) - 65536

/-- Consecutive byte pairs as signed 16-bit little-endian samples; a trailing
incomplete sample (a single byte) is silently discarded. -/
def bytesToSamples : List Nat → List Int
  | lo :: hi :: rest => toInt16 lo hi :: bytesToSamples rest
  | _ => []

/-- The samples of channel `k` out of `c` interleaved channels: frame `f` of
channel `k` is sample number `f * c + k`, normalized by dividing by 32768.
Each channel receives `⌊samples / c⌋` frames. -/
def channelSamples (samples : List Int) (c k : Nat) : List ℚ :=
  (List.range (samples.length / c)).map
    fun f => ((samples.getD (f * c + k) 0 : Int) : ℚ) / 32768

/-- Modelled from the spec: `decodeAudioData` / `pcm16ToFloatBuffer` of
`utils/audioUtils.ts` — bytes interpreted as interleaved signed 16-bit
little-endian PCM, each sample divided by 32768; fails
(`InvalidAudioFormatError`) when the byte length is zero. -/
def pcm16ToFloatBuffer (bytes : List Nat) (channelCount : Nat) :
    Except String (List (List ℚ)) :=
  if bytes.length = 0 then .error "InvalidAudioFormatError"
  else .ok ((List.range channelCount).map
    (channelSamples (bytesToSamples bytes) channelCount))

/-! ## The Gemini service wrappers (`src/services/geminiService.ts`)

Each wrapper is a pure function of the remote call's outcome.  A `netError`
outcome stands for any throw inside the `try` block (network failure, quota,
missing response text), which the wrapper's own `catch` converts into one
fixed error message. -/

/-- Outcome of the remote story-generation call: a response whose `.text` is
available, or any failure inside the `try` block. -/
inductive StoryResult where
  | resp (text : String)
  | netError
deriving DecidableEq, Repr

/-- Outcome of the remote speech-generation call: a response whose
`candidates[0].content.parts[0].inlineData.data` field is `audioData`
(`none` when the path is absent), or any failure inside the `try` block. -/
inductive SpeechResult where
  | resp (audioData : Option String)
  | netError
deriving DecidableEq, Repr

/-- Leading and trailing whitespace removal on a character list, the model of
JavaScript `String.prototype.trim` (whitespace per `Char.isWhitespace`). -/
def trimLeftChars : List Char → List Char
  | [] => []
  | c :: cs => if c.isWhitespace then trimLeftChars cs else c :: cs

def trimChars (l : List Char) : List Char :=
  (trimLeftChars (trimLeftChars l).reverse).reverse

/-- `strTrim t` is `t` with leading and trailing whitespace removed. -/
def strTrim (t : String) : String :=
  String.mk (trimChars t.data)

/-- `generateStoryFromImage` (the image bytes do not influence the modelled
control flow): on success it returns the response text **trimmed**; any error
is caught, logged and re-thrown as one fixed message. -/
def generateStoryFromImage : StoryResult → Except String String
  | .resp t => .ok (strTrim t)
  | .netError => .error "Failed to communicate with the Gemini API for story generation."

/-- `generateSpeechFromText`: returns the base64 `audioData` of the response;
`if (!audioData) throw` makes both a missing payload and the (JavaScript
falsy) empty string fail.  The inner `"No audio data received from API."`
throw is swallowed by the function's own `catch`, so every failure surfaces
the same fixed message. -/
def generateSpeechFromText : SpeechResult → Except String String
  | .resp (some t) =>
      if t = "" then .error "Failed to communicate with the Gemini API for speech generation."
      else .ok t
  | .resp none => .error "Failed to communicate with the Gemini API for speech generation."
  | .netError => .error "Failed to communicate with the Gemini API for speech generation."

/-! ## The orchestration state machine (`src/App.tsx`) -/

/-- `type AppState = 'idle' | 'loadingStory' | 'loadingAudio' | 'error'` -/
inductive AppState where
  | idle
  | loadingStory
  | loadingAudio
  | error
deriving DecidableEq, Repr

/-- The component's state: the five `useState` cells and the
`audioSourceRef` ref of `App`, together with bookkeeping that makes the
asynchronous behaviour explicit:

* `active` — identifiers of audio sources on which `start()` has been called
  and which have been neither stopped nor naturally ended (a "playback
  session" in the spec's sense); `nextId` numbers them;
* `pendingReads` — data URIs of `FileReader` loads whose `onload` has not yet
  fired;
* `pendingStory`, `pendingSpeech` — numbers of in-flight story- and
  speech-generation awaits;
* `storyCalls`, `speechCalls` — how many times each service has been invoked;
* `startWhilePlaying` — latches whether `source.start()` was ever executed
  while `isPlaying` was `true`. -/
structure AppS where
  image : Option String
  story : String
  status : AppState
  error : String
  isPlaying : Bool
  audioSource : Option Nat
  active : List Nat
  nextId : Nat
  pendingReads : List String
  pendingStory : Nat
  pendingSpeech : Nat
  storyCalls : Nat
  speechCalls : Nat
  startWhilePlaying : Bool
deriving DecidableEq, Repr

/-- The initial render: every cell at its `useState` initial value. -/
def init : AppS :=
  { image := none, story := "", status := .idle, error := "", isPlaying := false,
    audioSource := none, active := [], nextId := 0, pendingReads := [],
    pendingStory := 0, pendingSpeech := 0, storyCalls := 0, speechCalls := 0,
    startWhilePlaying := false }

/-- Events driving the component: the two user interactions and the
asynchronous completions they can leave behind. -/
inductive Event where
  /-- The file input's `onChange` with a file of MIME type `mime` that will
  read back as data URI `dataUri`. -/
  | selectImage (mime : String) (dataUri : String)
  /-- The `FileReader.onload` of the oldest outstanding read. -/
  | readerLoad
  /-- Settlement of an in-flight `generateStoryFromImage` await. -/
  | storyDone (r : StoryResult)
  /-- The playback button's `onClick` (`handleTogglePlayback`). -/
  | toggle
  /-- Settlement of an in-flight `generateSpeechFromText` await, followed by
  decode and playback setup. -/
  | speechDone (r : SpeechResult)
  /-- The `onended` completion callback of a still-active source `sid`. -/
  | ended (sid : Nat)
deriving DecidableEq, Repr

/-- `const isLoading = status === 'loadingStory' || status === 'loadingAudio'`;
the file input is `disabled={isLoading}`. -/
def isLoading (s : AppS) : Bool :=
  s.status = .loadingStory || s.status = .loadingAudio

/-- `file.type.startsWith('image/')`. -/
def isImageMime (mime : String) : Bool :=
  "image/".data.isPrefixOf mime.data

/-- `stopPlayback`: if a source is referenced, `stop()` and `disconnect()` it
(ending its session) and clear the reference; in all cases set
`isPlaying` to `false`. -/
def stopPlayback (s : AppS) : AppS :=
  match s.audioSource with
  | some i => { s with active := s.active.erase i, audioSource := none, isPlaying := false }
  | none => { s with isPlaying := false }

/-- The speech phase of `handleTogglePlayback` after the await settles:
`generateSpeechFromText`, then `decode`, then `decodeAudioData` with
`sampleRate = 24000`, `numChannels = 1`; any error propagates to the
handler's `catch`. -/
def speechPipeline (r : SpeechResult) : Except String (List (List ℚ)) := do
  let b64 ← generateSpeechFromText r
  let bytes ← decode b64
  pcm16ToFloatBuffer bytes 1

/-- One event handled, exactly as the component's code handles it; `none`
when the event cannot occur (its control is disabled, or no matching
asynchronous operation is outstanding). -/
def step (s : AppS) : Event → Option AppS
  | .selectImage mime dataUri =>
    -- the input is disabled while loading, so no change event can fire then
    if isLoading s then none
    else if isImageMime mime = false then
      some { s with error := "Please upload a valid image file.", status := .error }
    else
      -- a FileReader is created and `readAsDataURL` started; nothing else
      -- changes until its `onload` fires
      some { s with pendingReads := s.pendingReads ++ [dataUri] }
  | .readerLoad =>
    match s.pendingReads with
    | [] => none
    | uri :: rest =>
      some { s with pendingReads := rest, image := some uri, story := "",
                    error := "", status := .loadingStory,
                    pendingStory := s.pendingStory + 1,
                    storyCalls := s.storyCalls + 1 }
  | .storyDone r =>
    if s.pendingStory = 0 then none
    else
      match generateStoryFromImage r with
      | .ok t =>
        some { s with pendingStory := s.pendingStory - 1, story := t, status := .idle }
      | .error _ =>
        some { s with pendingStory := s.pendingStory - 1,
                      error := "Failed to generate story. Please try again.",
                      status := .error }
  | .toggle =>
    -- the button is `disabled={!story || status === 'loadingStory'}`
    if s.story = "" || s.status = .loadingStory then none
    else if s.isPlaying then some (stopPlayback s)
    else
      some { s with status := .loadingAudio, error := "",
                    pendingSpeech := s.pendingSpeech + 1,
                    speechCalls := s.speechCalls + 1 }
  | .speechDone r =>
    if s.pendingSpeech = 0 then none
    else
      match speechPipeline r with
      | .ok _ =>
        -- createBufferSource, connect, onended, start(), ref := source
        some { s with pendingSpeech := s.pendingSpeech - 1,
                      active := s.nextId :: s.active,
                      audioSource := some s.nextId, nextId := s.nextId + 1,
                      isPlaying := true, status := .idle,
                      startWhilePlaying := s.startWhilePlaying || s.isPlaying }
      | .error _ =>
        some { s with pendingSpeech := s.pendingSpeech - 1,
                      error := "Failed to generate audio. Please try again.",
                      status := .error, isPlaying := false }
  | .ended sid =>
    if s.active.contains sid then
      some { s with active := s.active.erase sid, isPlaying := false,
                    audioSource := none }
    else none

/-- A whole interaction: events folded through `step`; `none` as soon as one
event is impossible. -/
def run (s : AppS) : List Event → Option AppS
  | [] => some s
  | e :: es =>
    match step s e with
    | some s' => run s' es
    | none => none

/-! ## Sample states used to instantiate the theorems -/

/-- The state after rejecting a non-image file in the initial state. -/
def rejectDemoPost : AppS :=
  { init with error := "Please upload a valid image file.", status := .error }

/-- A state with one audio source playing. -/
def playDemo : AppS :=
  { init with story := "Once", isPlaying := true, audioSource := some 0,
              active := [0], nextId := 1 }

/-- A state with a story and one in-flight speech-generation request. -/
def speechPendingDemo : AppS :=
  { init with story := "Once", status := .loadingAudio, pendingSpeech := 1,
              speechCalls := 1 }

/-- `speechPendingDemo` after its speech request failed. -/
def audioFailDemo : AppS :=
  { init with story := "Once", speechCalls := 1,
              error := "Failed to generate audio. Please try again.", status := .error }

/-! ## Claim theorems -/

/-- **C6.** In every state in which the story is empty, and in every state in
which story generation is in progress, the playback button is disabled
(`disabled={!story || status === 'loadingStory'}`), so a playback toggle
produces no transition at all: no state changes and no speech-generation call
is made. -/
theorem toggle_ignored_when_no_story_or_loading (s : AppS)
    (h : s.story = "" ∨ s.status = .loadingStory) :
    step s .toggle = none := by
  rcases h with h | h <;> simp [step, h]

/-- Witness for `toggle_ignored_when_no_story_or_loading` at the initial
state, whose story is empty. -/
theorem toggle_ignored_witness : step init .toggle = none :=
  toggle_ignored_when_no_story_or_loading init (Or.inl rfl)

/-- **C7.** `stopPlayback` never errors (it is a total function), always ends
with `isPlaying = false` and no referenced source, is idempotent, erases the
referenced source's session when there is one, and is a pure
`isPlaying := false` no-op when already idle (no referenced source). -/
theorem stopPlayback_idempotent (s : AppS) :
    (stopPlayback s).isPlaying = false ∧
    (stopPlayback s).audioSource = none ∧
    stopPlayback (stopPlayback s) = stopPlayback s ∧
    (∀ i, s.audioSource = some i → (stopPlayback s).active = s.active.erase i) ∧
    (s.audioSource = none → stopPlayback s = { s with isPlaying := false }) := by
  obtain ⟨img, st, stat, err, play, src, act, nid, pr, ps, psp, sc, spc, swp⟩ := s
  cases src <;> simp [stopPlayback]

/-- Witness for `stopPlayback_idempotent` at a concrete playing state. -/
theorem stopPlayback_idempotent_witness :
    (stopPlayback playDemo).isPlaying = false ∧
    (stopPlayback playDemo).audioSource = none ∧
    stopPlayback (stopPlayback playDemo) = stopPlayback playDemo ∧
    (stopPlayback playDemo).active = playDemo.active.erase 0 := by
  have h := stopPlayback_idempotent playDemo
  exact ⟨h.1, h.2.1, h.2.2.1, h.2.2.2.1 0 rfl⟩

/-- **C3.** Selecting a file whose MIME type does not start with `image/`
moves the orchestrator directly to the error state with the exact message
`"Please upload a valid image file."`; the story-generation service is never
called (its call counter is unchanged and no reader load — the only source of
story calls — is queued). -/
theorem nonimage_file_rejected (s s' : AppS) (mime uri : String)
    (hmime : isImageMime mime = false)
    (hstep : step s (.selectImage mime uri) = some s') :
    s'.status = .error ∧ s'.error = "Please upload a valid image file." ∧
    s'.storyCalls = s.storyCalls ∧ s'.pendingReads = s.pendingReads ∧
    s'.pendingStory = s.pendingStory := by
  simp only [step, hmime, if_true] at hstep
  split at hstep
  · exact absurd hstep (by simp)
  · rw [Option.some.injEq] at hstep
    subst hstep
    exact ⟨rfl, rfl, rfl, rfl, rfl⟩

/-- Witness for `nonimage_file_rejected`: choosing a file of MIME type
`application/pdf` in the initial state. -/
theorem nonimage_file_rejected_witness :
    rejectDemoPost.status = .error ∧
    rejectDemoPost.error = "Please upload a valid image file." ∧
    rejectDemoPost.storyCalls = init.storyCalls ∧
    rejectDemoPost.pendingReads = init.pendingReads ∧
    rejectDemoPost.pendingStory = init.pendingStory :=
  nonimage_file_rejected init rejectDemoPost "application/pdf" "doc.pdf"
    (by decide) (by decide)

/-- **C10.** Rejecting a non-image file changes *only* the error message and
the status: the resulting state is the old state with `error` and `status`
replaced — image, story, playing flag, referenced source and active sessions
are all untouched, so a previously generated story stays visible and
playable. -/
theorem nonimage_file_reject_frame (s s' : AppS) (mime uri : String)
    (hmime : isImageMime mime = false)
    (hstep : step s (.selectImage mime uri) = some s') :
    s' = { s with error := "Please upload a valid image file.", status := .error } := by
  simp only [step, hmime, if_true] at hstep
  split at hstep
  · exact absurd hstep (by simp)
  · rw [Option.some.injEq] at hstep
    exact hstep.symm

/-- Witness for `nonimage_file_reject_frame` at a state with a story playing. -/
theorem nonimage_file_reject_frame_witness :
    ({ playDemo with error := "Please upload a valid image file.",
                     status := AppState.error } : AppS) =
      { playDemo with error := "Please upload a valid image file.",
                      status := AppState.error } :=
  nonimage_file_reject_frame playDemo _ "application/pdf" "doc.pdf"
    (by decide) (by decide)

/-- **C4.** Whenever the speech phase fails — the awaited service call, the
base64 decode, or the PCM decode throws — the handler's `catch` leaves the
orchestrator in the error state with the one fixed audio-phase message
(whatever error `e` the pipeline threw is only logged, never shown: the
displayed message is a constant, independent of `e`), and forces
`isPlaying` to `false`. -/
theorem audio_failure_generic_error (s s' : AppS) (r : SpeechResult) (e : String)
    (hfail : speechPipeline r = .error e)
    (hstep : step s (.speechDone r) = some s') :
    s'.status = .error ∧
    s'.error = "Failed to generate audio. Please try again." ∧
    s'.isPlaying = false := by
  simp only [step] at hstep
  split at hstep
  · exact absurd hstep (by simp)
  · rw [hfail, Option.some.injEq] at hstep
    subst hstep
    exact ⟨rfl, rfl, rfl⟩

/-- Witness for `audio_failure_generic_error`: a network failure of the
speech call in a state with one in-flight speech request. -/
theorem audio_failure_generic_error_witness :
    audioFailDemo.status = .error ∧
    audioFailDemo.error = "Failed to generate audio. Please try again." ∧
    audioFailDemo.isPlaying = false :=
  audio_failure_generic_error speechPendingDemo audioFailDemo .netError
    "Failed to communicate with the Gemini API for speech generation."
    rfl (by decide)

/-- **C5.** When the speech-generation response carries no audio payload, the
wrapper fails with its fixed service error, and the handler's `catch` leaves
the orchestrator in the error state with `isPlaying = false`; no playback
session is ever created (the active sessions, the session counter and the
source reference are all unchanged). -/
theorem no_audio_payload_no_session :
    generateSpeechFromText (.resp none) =
      .error "Failed to communicate with the Gemini API for speech generation." ∧
    ∀ s s' : AppS, step s (.speechDone (.resp none)) = some s' →
      s'.status = .error ∧ s'.isPlaying = false ∧ s'.active = s.active ∧
      s'.nextId = s.nextId ∧ s'.audioSource = s.audioSource := by
  refine ⟨rfl, fun s s' hstep => ?_⟩
  simp only [step] at hstep
  split at hstep
  · exact absurd hstep (by simp)
  · have hfail : speechPipeline (.resp none) =
        .error "Failed to communicate with the Gemini API for speech generation." := rfl
    rw [hfail, Option.some.injEq] at hstep
    subst hstep
    exact ⟨rfl, rfl, rfl, rfl, rfl⟩

/-- Witness for `no_audio_payload_no_session` in a state with one in-flight
speech request. -/
theorem no_audio_payload_no_session_witness :
    audioFailDemo.status = .error ∧ audioFailDemo.isPlaying = false ∧
    audioFailDemo.active = speechPendingDemo.active ∧
    audioFailDemo.nextId = speechPendingDemo.nextId ∧
    audioFailDemo.audioSource = speechPendingDemo.audioSource :=
  no_audio_payload_no_session.2 speechPendingDemo audioFailDemo (by decide)

/-! ## Whitespace trimming lemmas (for the stored story) -/

/-- If `trimLeftChars` returns a nonempty list, its head is not whitespace. -/
theorem trimLeftChars_head (l : List Char) :
    ∀ c cs, trimLeftChars l = c :: cs → c.isWhitespace = false := by
  induction l with
  | nil => intro c cs h; cases h
  | cons a as ih =>
    intro c cs h
    cases ha : a.isWhitespace with
    | false =>
      rw [trimLeftChars, if_neg (by simp [ha])] at h
      cases h
      exact ha
    | true =>
      rw [trimLeftChars, if_pos (by simp [ha])] at h
      exact ih c cs h

/-- `trimLeftChars l` is a suffix of `l`. -/
theorem trimLeftChars_suffix (l : List Char) : ∃ t, t ++ trimLeftChars l = l := by
  induction l with
  | nil => exact ⟨[], rfl⟩
  | cons a as ih =>
    cases ha : a.isWhitespace with
    | false => exact ⟨[], by rw [trimLeftChars, if_neg (by simp [ha])]; rfl⟩
    | true =>
      obtain ⟨t, ht⟩ := ih
      exact ⟨a :: t, by rw [trimLeftChars, if_pos (by simp [ha])]; simp [ht]⟩

/-- `trimChars l` followed by some rest is `trimLeftChars l`. -/
theorem trimChars_prefix (l : List Char) : ∃ u, trimChars l ++ u = trimLeftChars l := by
  obtain ⟨t, ht⟩ := trimLeftChars_suffix (trimLeftChars l).reverse
  refine ⟨t.reverse, ?_⟩
  have := congrArg List.reverse ht
  simpa [trimChars] using this

/-- Neither end of `trimChars l` is whitespace. -/
theorem trimChars_noEdge (l : List Char) :
    (∀ c cs, trimChars l = c :: cs → c.isWhitespace = false) ∧
    (∀ c, (trimChars l).getLast? = some c → c.isWhitespace = false) := by
  constructor
  · intro c cs h
    obtain ⟨u, hu⟩ := trimChars_prefix l
    rw [h] at hu
    exact trimLeftChars_head l c (cs ++ u) (by simpa using hu.symm)
  · intro c h
    have h2 : (trimLeftChars (trimLeftChars l).reverse).head? = some c := by
      have := h
      rw [trimChars, List.getLast?_reverse] at this
      exact this
    cases he : trimLeftChars (trimLeftChars l).reverse with
    | nil => rw [he] at h2; cases h2
    | cons x xs =>
      rw [he] at h2
      simp only [List.head?_cons, Option.some.injEq] at h2
      subst h2
      exact trimLeftChars_head _ _ _ he

/-- `true` iff neither the first nor the last character satisfies
`Char.isWhitespace`. -/
def noEdgeWhitespace (l : List Char) : Bool :=
  (l.head?.all fun c => !c.isWhitespace) && (l.getLast?.all fun c => !c.isWhitespace)

/-- A trimmed character list has no whitespace at either end. -/
theorem noEdgeWhitespace_trimChars (l : List Char) :
    noEdgeWhitespace (trimChars l) = true := by
  obtain ⟨h1, h2⟩ := trimChars_noEdge l
  rw [noEdgeWhitespace, Bool.and_eq_true]
  constructor
  · cases he : trimChars l with
    | nil => rfl
    | cons x xs => simp [h1 x xs he]
  · cases hg : (trimChars l).getLast? with
    | none => rfl
    | some c => simp [h2 c hg]

/-- A state with one pending file-reader load. -/
def readPendingDemo : AppS :=
  { init with pendingReads := ["u"] }

/-- A state with one in-flight story-generation request. -/
def storyPendingDemo : AppS :=
  { init with image := some "u", status := .loadingStory, pendingStory := 1,
              storyCalls := 1 }

/-- `storyPendingDemo` after its story request succeeded with `"  hi  "`. -/
def storyOkDemo : AppS :=
  { init with image := some "u", storyCalls := 1, story := "hi", status := .idle }

/-- `storyPendingDemo` after its story request failed. -/
def storyFailDemo : AppS :=
  { init with image := some "u", storyCalls := 1,
              error := "Failed to generate story. Please try again.", status := .error }

/-- **C9.** The story stored after a successful story-generation call is the
service's response text with leading and trailing whitespace removed
(`response.text.trim()`); in particular the stored story never begins or ends
with a whitespace character. -/
theorem story_stored_trimmed (s s' : AppS) (t : String)
    (hstep : step s (.storyDone (.resp t)) = some s') :
    s'.story = strTrim t ∧ noEdgeWhitespace s'.story.data = true := by
  simp only [step] at hstep
  split at hstep
  · exact absurd hstep (by simp)
  · simp only [generateStoryFromImage, Option.some.injEq] at hstep
    subst hstep
    exact ⟨rfl, noEdgeWhitespace_trimChars t.data⟩

/-- Witness for `story_stored_trimmed`: the response text `"  hi  "` is
stored as `"hi"`. -/
theorem story_stored_trimmed_witness :
    storyOkDemo.story = strTrim "  hi  " ∧
    noEdgeWhitespace storyOkDemo.story.data = true :=
  story_stored_trimmed storyPendingDemo storyOkDemo "  hi  " (by decide)

/-- **C8.** The story lifecycle: the reader's `onload` clears the stored
story (and only then invokes the story-generation service, in the same
handler turn — the call counter increments while the story is empty); a
successful completion stores the generated text and returns the status to
idle; a failed completion leaves the story exactly as it was (empty, in a
real interaction) and moves to the error status. -/
theorem story_lifecycle :
    (∀ s s' : AppS, step s .readerLoad = some s' →
      s'.story = "" ∧ s'.status = .loadingStory ∧
      s'.storyCalls = s.storyCalls + 1 ∧ s'.pendingStory = s.pendingStory + 1) ∧
    (∀ (s s' : AppS) (t : String), step s (.storyDone (.resp t)) = some s' →
      s'.story = strTrim t ∧ s'.status = .idle) ∧
    (∀ s s' : AppS, step s (.storyDone .netError) = some s' →
      s'.story = s.story ∧ s'.status = .error) := by
  refine ⟨fun s s' hstep => ?_, fun s s' t hstep => ?_, fun s s' hstep => ?_⟩
  · simp only [step] at hstep
    split at hstep
    · exact absurd hstep (by simp)
    · rw [Option.some.injEq] at hstep
      subst hstep
      exact ⟨rfl, rfl, rfl, rfl⟩
  · simp only [step] at hstep
    split at hstep
    · exact absurd hstep (by simp)
    · simp only [generateStoryFromImage, Option.some.injEq] at hstep
      subst hstep
      exact ⟨rfl, rfl⟩
  · simp only [step] at hstep
    split at hstep
    · exact absurd hstep (by simp)
    · simp only [generateStoryFromImage, Option.some.injEq] at hstep
      subst hstep
      exact ⟨rfl, rfl⟩

/-- Witness for `story_lifecycle`: a reader load in a state with one pending
read, then the two completions in a state with one in-flight story call. -/
theorem story_lifecycle_witness :
    (storyPendingDemo.story = "" ∧ storyPendingDemo.status = .loadingStory ∧
     storyPendingDemo.storyCalls = readPendingDemo.storyCalls + 1 ∧
     storyPendingDemo.pendingStory = readPendingDemo.pendingStory + 1) ∧
    (storyOkDemo.story = strTrim "  hi  " ∧ storyOkDemo.status = .idle) ∧
    (storyFailDemo.story = storyPendingDemo.story ∧ storyFailDemo.status = .error) :=
  ⟨story_lifecycle.1 readPendingDemo storyPendingDemo (by decide),
   story_lifecycle.2.1 storyPendingDemo storyOkDemo "  hi  " (by decide),
   story_lifecycle.2.2 storyPendingDemo storyFailDemo (by decide)⟩

/-! ## The PCM decode: sample counts and sample range -/

/-- `bytesToSamples` yields one sample per byte pair, flooring. -/
theorem bytesToSamples_length : ∀ l : List Nat, (bytesToSamples l).length = l.length / 2
  | [] => by simp [bytesToSamples]
  | [_] => by simp [bytesToSamples]
  | lo :: hi :: rest => by
    have ih := bytesToSamples_length rest
    simp only [bytesToSamples, List.length_cons, ih]
    omega

/-- Every decoded sample is in the signed 16-bit range. -/
theorem toInt16_bounds (lo hi : Nat) : -32768 ≤ toInt16 lo hi ∧ toInt16 lo hi ≤ 32767 := by
  have h : (lo + 256 * hi) % 65536 < 65536 := Nat.mod_lt _ (by norm_num)
  unfold toInt16
  dsimp only
  split <;> omega

theorem bytesToSamples_bounds :
    ∀ (l : List Nat) (x : Int), x ∈ bytesToSamples l → -32768 ≤ x ∧ x ≤ 32767
  | [], x, hx => by simp [bytesToSamples] at hx
  | [_], x, hx => by simp [bytesToSamples] at hx
  | lo :: hi :: rest, x, hx => by
    rcases List.mem_cons.1 hx with h | h
    · subst h; exact toInt16_bounds lo hi
    · exact bytesToSamples_bounds rest x h

/-- Bounds for any `getD` lookup into the sample list. -/
theorem samples_getD_bounds (l : List Nat) (i : Nat) :
    -32768 ≤ (bytesToSamples l).getD i 0 ∧ (bytesToSamples l).getD i 0 ≤ 32767 := by
  by_cases h : i < (bytesToSamples l).length
  · rw [List.getD_eq_getElem _ _ h]
    exact bytesToSamples_bounds l _ (List.getElem_mem h)
  · rw [List.getD_eq_default _ _ (Nat.le_of_not_lt h)]
    norm_num

/-- A signed 16-bit value divided by 32768 lies in `[-1, 1)`. -/
theorem int16_div_bounds (a : Int) (h1 : -32768 ≤ a) (h2 : a ≤ 32767) :
    -1 ≤ (a : ℚ) / 32768 ∧ (a : ℚ) / 32768 < 1 := by
  constructor
  · rw [le_div_iff₀ (by norm_num : (0 : ℚ) < 32768)]
    have : (-32768 : ℚ) ≤ (a : ℚ) := by exact_mod_cast h1
    linarith
  · rw [div_lt_one (by norm_num : (0 : ℚ) < 32768)]
    exact_mod_cast Int.lt_add_one_of_le h2

/-- **C2.** On a byte buffer of even positive length `L` and a channel count
`c > 0`, `pcm16ToFloatBuffer` succeeds and produces `c` channels of exactly
`L / 2 / c` samples each; every sample is a little-endian signed 16-bit
integer divided by 32768 and therefore lies in `[-1, 1)`. -/
theorem pcm16_sample_counts_and_range (bytes : List Nat) (c : Nat) (hc : 0 < c)
    (heven : bytes.length % 2 = 0) (hpos : bytes.length ≠ 0) :
    (∀ e, pcm16ToFloatBuffer bytes c ≠ .error e) ∧
    ∀ chans, pcm16ToFloatBuffer bytes c = .ok chans →
      chans.length = c ∧
      ∀ ch ∈ chans, ch.length = bytes.length / 2 / c ∧
        ∀ x ∈ ch, (∃ a : Int, -32768 ≤ a ∧ a ≤ 32767 ∧ x = (a : ℚ) / 32768) ∧
          -1 ≤ x ∧ x < 1 := by
  rw [pcm16ToFloatBuffer, if_neg hpos]
  refine ⟨?_, ?_⟩
  · intro e h
    cases h
  intro chans h
  rw [Except.ok.injEq] at h
  subst h
  refine ⟨by simp, fun ch hch => ?_⟩
  rw [List.mem_map] at hch
  obtain ⟨k, hk, rfl⟩ := hch
  constructor
  · rw [channelSamples, List.length_map, List.length_range, bytesToSamples_length]
  · intro x hx
    rw [channelSamples, List.mem_map] at hx
    obtain ⟨f, hf, rfl⟩ := hx
    obtain ⟨hlo, hhi⟩ := samples_getD_bounds bytes (f * c + k)
    exact ⟨⟨_, hlo, hhi, rfl⟩, int16_div_bounds _ hlo hhi⟩

/-- Witness for `pcm16_sample_counts_and_range`: the two samples
`[0x0000, 0x7FFF]` as four bytes, one channel. -/
theorem pcm16_sample_counts_witness :
    (0 < 1 ∧ ([0, 0, 255, 127] : List Nat).length % 2 = 0 ∧
      ([0, 0, 255, 127] : List Nat).length ≠ 0) ∧
    (∀ e, pcm16ToFloatBuffer [0, 0, 255, 127] 1 ≠ .error e) ∧
    ∀ chans, pcm16ToFloatBuffer [0, 0, 255, 127] 1 = .ok chans →
      chans.length = 1 ∧
      ∀ ch ∈ chans, ch.length = ([0, 0, 255, 127] : List Nat).length / 2 / 1 ∧
        ∀ x ∈ ch, (∃ a : Int, -32768 ≤ a ∧ a ≤ 32767 ∧ x = (a : ℚ) / 32768) ∧
          -1 ≤ x ∧ x < 1 := by
  refine ⟨⟨by decide, by decide, by decide⟩, ?_⟩
  exact pcm16_sample_counts_and_range [0, 0, 255, 127] 1 (by decide) (by decide) (by decide)

/-! ## The single-session invariant (C1): sequential interactions keep at
most one playback session; overlapping toggles do not -/

/-- `stopPlayback` at a state with a referenced source, as a record. -/
theorem stopPlayback_eq_of_source (s : AppS) (i : Nat) (h : s.audioSource = some i) :
    stopPlayback s =
      { s with active := s.active.erase i, audioSource := none, isPlaying := false } := by
  simp [stopPlayback, h]

/-- `step`, restricted to interactions in which the user never presses the
playback button while a speech-generation request is still in flight (each
audio phase settles before the next press). -/
def stepSeq (s : AppS) (e : Event) : Option AppS :=
  match e with
  | .toggle => if s.pendingSpeech = 0 then step s .toggle else none
  | e => step s e

/-- `run` over `stepSeq`. -/
def runSeq (s : AppS) : List Event → Option AppS
  | [] => some s
  | e :: es =>
    match stepSeq s e with
    | some s' => runSeq s' es
    | none => none

/-- The single-session invariant: at most one speech request in flight; when
playing, exactly one active session, which is the referenced source, and no
request in flight; when not playing, no active session at all; and
`start()` has never been executed while playing. -/
def InvC1 (s : AppS) : Prop :=
  s.pendingSpeech ≤ 1 ∧
  (s.isPlaying = true →
    s.pendingSpeech = 0 ∧ ∃ i, s.active = [i] ∧ s.audioSource = some i) ∧
  (s.isPlaying = false → s.active = []) ∧
  s.startWhilePlaying = false

theorem stepSeq_preserves_inv (s s' : AppS) (e : Event)
    (hInv : InvC1 s) (h : stepSeq s e = some s') : InvC1 s' := by
  obtain ⟨hpend, hplay, hidle, hflag⟩ := hInv
  cases e with
  | selectImage mime uri =>
    simp only [stepSeq, step] at h
    split at h
    · cases h
    · split at h
      · rw [Option.some.injEq] at h
        subst h
        exact ⟨hpend, hplay, hidle, hflag⟩
      · rw [Option.some.injEq] at h
        subst h
        exact ⟨hpend, hplay, hidle, hflag⟩
  | readerLoad =>
    simp only [stepSeq, step] at h
    split at h
    · cases h
    · rw [Option.some.injEq] at h
      subst h
      exact ⟨hpend, hplay, hidle, hflag⟩
  | storyDone r =>
    simp only [stepSeq, step] at h
    split at h
    · cases h
    · split at h
      · rw [Option.some.injEq] at h
        subst h
        exact ⟨hpend, hplay, hidle, hflag⟩
      · rw [Option.some.injEq] at h
        subst h
        exact ⟨hpend, hplay, hidle, hflag⟩
  | toggle =>
    simp only [stepSeq] at h
    split at h
    case isFalse => cases h
    case isTrue hps =>
      simp only [step] at h
      split at h
      · cases h
      · split at h
        case isTrue hpl =>
          rw [Option.some.injEq] at h
          subst h
          obtain ⟨-, i, hact, hsrc⟩ := hplay hpl
          rw [stopPlayback_eq_of_source s i hsrc]
          refine ⟨hpend, ?_, ?_, hflag⟩
          · intro hc
            simp at hc
          · intro _
            rw [hact]
            simp
        case isFalse hpl =>
          rw [Option.some.injEq] at h
          subst h
          rw [Bool.not_eq_true] at hpl
          refine ⟨by dsimp only; omega, ?_, ?_, hflag⟩
          · intro hc
            rw [hpl] at hc
            simp at hc
          · intro _
            exact hidle hpl
  | speechDone r =>
    simp only [stepSeq, step] at h
    split at h
    · cases h
    case isFalse hps =>
      have hpl : s.isPlaying = false := by
        cases hpl' : s.isPlaying
        · rfl
        · exact absurd (hplay hpl').1 hps
      have hact : s.active = [] := hidle hpl
      have hone : s.pendingSpeech = 1 := by omega
      split at h
      · rw [Option.some.injEq] at h
        subst h
        refine ⟨by dsimp only; omega, ?_, ?_, ?_⟩
        · intro _
          refine ⟨by dsimp only; omega, s.nextId, ?_, rfl⟩
          rw [hact]
        · intro hc
          simp at hc
        · rw [hflag, hpl]
          rfl
      · rw [Option.some.injEq] at h
        subst h
        refine ⟨by dsimp only; omega, ?_, ?_, hflag⟩
        · intro hc
          simp at hc
        · intro _
          exact hact
  | ended sid =>
    simp only [stepSeq, step] at h
    split at h
    case isTrue hmem =>
      rw [Option.some.injEq] at h
      subst h
      have hne : s.active ≠ [] := by
        intro hnil
        rw [hnil] at hmem
        cases hmem
      have hpl : s.isPlaying = true := by
        cases hpl' : s.isPlaying
        · exact absurd (hidle hpl') hne
        · rfl
      obtain ⟨-, i, hact, -⟩ := hplay hpl
      have hsid : sid = i := by
        rw [hact] at hmem
        simpa using hmem
      refine ⟨hpend, ?_, ?_, hflag⟩
      · intro hc
        simp at hc
      · intro _
        rw [hact, hsid]
        simp
    case isFalse => cases h

/-- The initial state satisfies the single-session invariant. -/
theorem init_inv : InvC1 init :=
  ⟨by decide, fun hc => by simp [init] at hc, fun _ => rfl, rfl⟩

theorem runSeq_preserves_inv :
    ∀ (tr : List Event) (s s' : AppS), InvC1 s → runSeq s tr = some s' → InvC1 s'
  | [], s, s', hInv, h => by
    simp only [runSeq, Option.some.injEq] at h
    exact h ▸ hInv
  | e :: es, s, s', hInv, h => by
    simp only [runSeq] at h
    cases hst : stepSeq s e with
    | none => rw [hst] at h; cases h
    | some s1 =>
      rw [hst] at h
      exact runSeq_preserves_inv es s1 s' (stepSeq_preserves_inv s s1 e hInv hst) h

/-- **C1 (amended).** In every interaction in which the playback button is
never pressed while a speech-generation request is still in flight, any
reachable state has at most one active playback session, and `start()` has
never been executed while a session was playing. -/
theorem single_session_when_sequential (tr : List Event) (s : AppS)
    (h : runSeq init tr = some s) :
    s.active.length ≤ 1 ∧ s.startWhilePlaying = false := by
  obtain ⟨-, hplay, hidle, hflag⟩ := runSeq_preserves_inv tr init s init_inv h
  refine ⟨?_, hflag⟩
  cases hpl : s.isPlaying
  · rw [hidle hpl]
    simp
  · obtain ⟨-, i, hact, -⟩ := hplay hpl
    rw [hact]
    simp

/-- A sequential interaction: upload, story, play to completion of the
request, then stop. -/
def seqDemoTrace : List Event :=
  [.selectImage "image/png" "u", .readerLoad, .storyDone (.resp "Once"),
   .toggle, .speechDone (.resp (some "AAAA")), .toggle]

/-- The state `seqDemoTrace` ends in. -/
def seqDemoFinal : AppS :=
  { init with image := some "u", story := "Once", nextId := 1,
              storyCalls := 1, speechCalls := 1 }

/-- Witness for `single_session_when_sequential` on `seqDemoTrace`. -/
theorem single_session_when_sequential_witness :
    seqDemoFinal.active.length ≤ 1 ∧ seqDemoFinal.startWhilePlaying = false :=
  single_session_when_sequential seqDemoTrace seqDemoFinal (by decide)

/-- Two presses of the playback button while the first speech request is
still loading: every event here is reachable through the interface (the
button is **not** disabled while `status === 'loadingAudio'`). -/
def overlapTrace : List Event :=
  [.selectImage "image/png" "u", .readerLoad, .storyDone (.resp "Once"),
   .toggle, .toggle, .speechDone (.resp (some "AAAA")),
   .speechDone (.resp (some "AAAA"))]

/-- The state `overlapTrace` ends in. -/
def overlapFinal : AppS :=
  { init with image := some "u", story := "Once", isPlaying := true,
              audioSource := some 1, active := [1, 0], nextId := 2,
              storyCalls := 1, speechCalls := 2, startWhilePlaying := true }

/-- **C1 (counterexample).** The unrestricted system reaches, through
interface-valid events only, a state with **two** simultaneously active
playback sessions in which the second `start()` was executed while
`isPlaying` was `true`: the first source is never stopped, disconnected or
cleared before the second starts. -/
theorem concurrent_sessions_counterexample :
    run init overlapTrace = some overlapFinal ∧
    overlapFinal.active.length = 2 ∧
    overlapFinal.startWhilePlaying = true :=
  ⟨by decide, rfl, rfl⟩

end StoryTeller
